import Mathlib

/-!
Verification development for a books-catalog crawler (`scrape.py`) and its
downstream cleaning stage (`transform_and_load.py`).

The Python sources are shallowly embedded: HTML documents become an inductive
tree, BeautifulSoup-style queries become recursive functions on that tree,
Python dicts become insertion-ordered association lists, the filesystem becomes
an association list from paths to file contents, and Python exceptions become
`Except` values.  All numeric parsing is modelled over `ℚ`.
-/

set_option maxHeartbeats 1000000

namespace Scrape

/-- An HTML node: either an element (tag, class tokens, other attributes,
children) or a text node.  Mirrors what BeautifulSoup exposes of a parsed
page: `class` is kept apart from the other attributes because the code reads
it as a token list (`rating_p.get("class", [])`). -/
inductive Html where
  | elem (tag : String) (classes : List String) (attrs : List (String × String)) (children : List Html)
  | text (s : String)
deriving Repr

mutual

/-- Structural equality on nodes (used to model identity-based sibling
lookup; distinct occurrences of identical subtrees are merged, which is
faithful for every document considered here). -/
def Html.beq : Html → Html → Bool
  | .text s, .text t => s == t
  | .elem t₁ c₁ a₁ ch₁, .elem t₂ c₂ a₂ ch₂ =>
      t₁ == t₂ && c₁ == c₂ && a₁ == a₂ && Html.beqList ch₁ ch₂
  | _, _ => false

/-- Structural equality on node lists. -/
def Html.beqList : List Html → List Html → Bool
  | [], [] => true
  | x :: xs, y :: ys => Html.beq x y && Html.beqList xs ys
  | _, _ => false

end

instance : BEq Html := ⟨Html.beq⟩

instance {ε α : Type _} [DecidableEq ε] [DecidableEq α] : DecidableEq (Except ε α) := by
  intro a b
  cases a <;> cases b
  case error.error e f =>
    exact if h : e = f then isTrue (by rw [h]) else isFalse (by intro hh; injection hh; exact h ‹_›)
  case error.ok e y => exact isFalse (by intro hh; exact Except.noConfusion hh)
  case ok.error x f => exact isFalse (by intro hh; exact Except.noConfusion hh)
  case ok.ok x y =>
    exact if h : x = y then isTrue (by rw [h]) else isFalse (by intro hh; injection hh; exact h ‹_›)

/-- The children of a node (`[]` for text nodes). -/
def Html.children : Html → List Html
  | .text _ => []
  | .elem _ _ _ ch => ch

/-- Is this node an element with the given tag? -/
def Html.tagIs (t : String) : Html → Bool
  | .elem tg _ _ _ => tg == t
  | .text _ => false

/-- Does this element carry every one of the given class tokens?
(text nodes never match). -/
def Html.hasClasses (cls : List String) : Html → Bool
  | .elem _ cs _ _ => cls.all (fun c => cs.contains c)
  | .text _ => false

/-- `node.get(key, default)` over the non-class attributes. -/
def Html.attrD (h : Html) (key dflt : String) : String :=
  match h with
  | .text _ => dflt
  | .elem _ _ attrs _ => match attrs.lookup key with
    | some v => v
    | none => dflt

/-- `node.get(key)` over the non-class attributes, `None` when absent. -/
def Html.attr? (h : Html) (key : String) : Option String :=
  match h with
  | .text _ => none
  | .elem _ _ attrs _ => attrs.lookup key

/-- The class-token list of a node (`node.get("class", [])`). -/
def Html.classList : Html → List String
  | .text _ => []
  | .elem _ cs _ _ => cs

mutual

/-- All descendants of a node satisfying `p`, in document (pre-)order —
BeautifulSoup's recursive `find_all`. -/
def findAllDesc (p : Html → Bool) : Html → List Html
  | .text _ => []
  | .elem _ _ _ ch => findAllList p ch

/-- `find_all` over a list of sibling subtrees, in document order. -/
def findAllList (p : Html → Bool) : List Html → List Html
  | [] => []
  | c :: rest => (if p c then [c] else []) ++ findAllDesc p c ++ findAllList p rest

end

/-- `node.find(tag, class_=...)`: the first descendant element with the given
tag carrying all the given class tokens, or `None`. -/
def pyFind (tag : String) (cls : List String) (h : Html) : Option Html :=
  (findAllDesc (fun n => n.tagIs tag && n.hasClasses cls) h).head?

mutual

/-- `node.text`: concatenation of all descendant text, in document order. -/
def textOf : Html → String
  | .text s => s
  | .elem _ _ _ ch => textOfList ch

/-- Concatenated text of a list of sibling subtrees. -/
def textOfList : List Html → String
  | [] => ""
  | c :: rest => textOf c ++ textOfList rest

end

/-- A Python value as it appears in the scraped records: a string or `None`. -/
abbrev PyVal := Option String

/-- A Python dict with string keys, as an insertion-ordered association
list (keys are unique by construction of `dictInsert`). -/
abbrev Dict := List (String × PyVal)

/-- Dict lookup: `some v` when the key is present (with value `v`,
possibly `None`), `none` when the key is absent. -/
def dictGet (d : Dict) (k : String) : Option PyVal :=
  (d.find? (fun kv => kv.1 == k)).map (·.2)

/-- `d[key] = v`: replace in place if the key exists, else append. -/
def dictInsert (d : Dict) (k : String) (v : PyVal) : Dict :=
  match d with
  | [] => [(k, v)]
  | (k', v') :: rest =>
      if k' == k then (k', v) :: rest else (k', v') :: dictInsert rest k v

/-- `d.update(other)`: fold the entries of `other` into `d` in order. -/
def dictUpdate (d other : Dict) : Dict :=
  other.foldl (fun acc kv => dictInsert acc kv.1 kv.2) d

/-- The keys of a dict, in insertion order. -/
def dictKeys (d : Dict) : List String := d.map (·.1)

/-- `d[key]` where the caller knows the value is a string (models the
subscript used for `item["product_page_url"]`). -/
def dictGetStr (d : Dict) (k : String) : String :=
  match dictGet d k with
  | some (some s) => s
  | _ => ""

/-- Python's `str.strip()`: drop leading and trailing whitespace
(implemented structurally over the character list so it evaluates in the
kernel). -/
def pyStrip (s : String) : String :=
  String.mk (((s.data.dropWhile Char.isWhitespace).reverse.dropWhile Char.isWhitespace).reverse)

/-- Split a character list at the first occurrence of `://`, returning the
scheme part and the remainder, or `none` when there is no separator. -/
def splitScheme : List Char → Option (List Char × List Char)
  | [] => none
  | ':' :: '/' :: '/' :: rest => some ([], rest)
  | c :: rest => (splitScheme rest).map (fun ab => (c :: ab.1, ab.2))

/-- Split a character list on a separator character (like
`str.split(sep)`, always at least one piece). -/
def splitOnChar (sep : Char) : List Char → List (List Char)
  | [] => [[]]
  | c :: rest =>
    let r := splitOnChar sep rest
    if c = sep then [] :: r
    else
      match r with
      | [] => [[c]]
      | h :: t => (c :: h) :: t

/-- Normalise a URL path's segments, resolving `..` and `.` (the model of
the relative-reference merge performed by `urllib.parse.urljoin`). -/
def normSegs (segs : List (List Char)) : List (List Char) :=
  segs.foldl (fun acc seg =>
    if seg = ['.'] then acc
    else if seg = ['.', '.'] then acc.dropLast
    else acc ++ [seg]) []

/-- Rejoin path segments with `/`. -/
def joinSegs : List (List Char) → List Char
  | [] => []
  | [s] => s
  | s :: rest => s ++ '/' :: joinSegs rest

/-- Model of `urllib.parse.urljoin base rel` for http(s) URLs: an absolute
`rel` wins; an empty `rel` returns the base; otherwise `rel` is resolved
against the base's directory with `..`/`.` normalisation. -/
def urljoin (base rel : String) : String :=
  if rel = "" then base
  else if (splitScheme rel.data).isSome then rel
  else
    match splitScheme base.data with
    | some (scheme, rest) =>
      let parts := splitOnChar '/' rest
      let host := parts.headD []
      let basePath := parts.tail
      let relSegs := splitOnChar '/' rel.data
      let segs :=
        if rel.data.head? = some '/' then normSegs relSegs
        else normSegs (basePath.dropLast ++ relSegs)
      String.mk (scheme ++ [':', '/', '/'] ++ host ++ '/' :: joinSegs segs)
    | none => rel

/-- `parse_list_item(article, page_base_url)` from `scrape.py`.  The
unguarded `h3.find("a")` / `a.get(...)` make the function raise
`AttributeError` when the heading or its anchor is missing, which the
embedding surfaces as `Except.error`; every other missing sub-element is
guarded in the source and yields an empty-string field. -/
def parse_list_item (article : Html) (page_base_url : String) : Except String Dict :=
  match pyFind "h3" [] article with
  | none => .error "AttributeError"
  | some h3 =>
    match pyFind "a" [] h3 with
    | none => .error "AttributeError"
    | some a =>
      let title := pyStrip (a.attrD "title" "")
      let relative_link := a.attrD "href" ""
      let product_link := urljoin page_base_url relative_link
      let price := match pyFind "p" ["price_color"] article with
        | some t => pyStrip (textOf t)
        | none => ""
      let availability := match pyFind "p" ["instock", "availability"] article with
        | some t => pyStrip (textOf t)
        | none => ""
      let rating_class := match pyFind "p" ["star-rating"] article with
        | some p => p.classList
        | none => []
      let rating := ((rating_class.filter (fun c => c ≠ "star-rating")).headD "")
      let img_src := match pyFind "img" [] article with
        | some t => t.attrD "src" ""
        | none => ""
      let img_url := urljoin page_base_url img_src
      .ok [("title", some title),
           ("product_page_url", some product_link),
           ("price_text", some price),
           ("availability_text", some availability),
           ("rating_text", some rating),
           ("image_url", some img_url)]

/-- `soup.select("ul.breadcrumb li a")`: anchors inside list items inside a
breadcrumb list, in document order. -/
def breadcrumb_links (soup : Html) : List Html :=
  (findAllDesc (fun n => n.tagIs "ul" && n.hasClasses ["breadcrumb"]) soup).flatMap
    (fun ul => (findAllDesc (fun n => n.tagIs "li") ul).flatMap
      (fun li => findAllDesc (fun n => n.tagIs "a") li))

/-- Category from the breadcrumb trail: the text of the third breadcrumb
link if there are at least three, else `None` (lines 102–105). -/
def breadcrumb_category (soup : Html) : Option String :=
  let bs := breadcrumb_links soup
  if 3 ≤ bs.length then bs[2]?.map (fun b => pyStrip (textOf b)) else none

/-- `soup.select_one("#product_description")`: first element whose `id`
attribute is `product_description`. -/
def product_desc_anchor (soup : Html) : Option Html :=
  (findAllDesc (fun n => n.attr? "id" == some "product_description") soup).head?

/-- `target.find_next_sibling(tag)` resolved inside `root`: locate `target`
among some element's children and return the next following sibling element
with the given tag. -/
def nextSibWithTag (tag : String) (target : Html) : List Html → Option Html
  | [] => none
  | c :: rest =>
      if c == target then rest.find? (fun n => n.tagIs tag)
      else nextSibWithTag tag target rest

/-- All element nodes of the tree (the root included), document order. -/
def allElems (root : Html) : List Html :=
  root :: findAllDesc (fun n => match n with | .elem _ _ _ _ => true | .text _ => false) root

/-- `target.find_next_sibling(tag)` searched over the whole document. -/
def find_next_sibling (root : Html) (target : Html) (tag : String) : Option Html :=
  ((allElems root).filterMap (fun e => nextSibWithTag tag target e.children)).head?

/-- Description text: the paragraph immediately following the
`#product_description` anchor, stripped, else `""` (lines 107–112). -/
def description_text (soup : Html) : String :=
  match product_desc_anchor soup with
  | none => ""
  | some anchor =>
    match find_next_sibling soup anchor "p" with
    | none => ""
    | some p => pyStrip (textOf p)

/-- One `<tr>` of the product-information table: `row.find("th")` /
`row.find("td")` followed by `.text` raise `AttributeError` when the cell is
missing (lines 117–120 are unguarded). -/
def row_kv (row : Html) : Except String (String × String) :=
  match pyFind "th" [] row with
  | none => .error "AttributeError"
  | some th =>
    match pyFind "td" [] row with
    | none => .error "AttributeError"
    | some td => .ok (pyStrip (textOf th), pyStrip (textOf td))

/-- Fold the table rows into the open attribute dict, propagating the
exception of any malformed row. -/
def rows_info : List Html → Dict → Except String Dict
  | [], acc => .ok acc
  | r :: rest, acc =>
    match row_kv r with
    | .error e => .error e
    | .ok (k, v) => rows_info rest (dictInsert acc k (some v))

/-- The product-information table as an open key→value dict (lines
114–120); absent table ⇒ empty dict; malformed row ⇒ `AttributeError`. -/
def table_info (soup : Html) : Except String Dict :=
  match pyFind "table" ["table", "table-striped"] soup with
  | none => .ok []
  | some t => rows_info (findAllDesc (fun n => n.tagIs "tr") t) []

/-- The `try:` body of `parse_product_page` (lines 100–123): build
`{"category": ..., "description": ..., **info, "fetched_url": ...}`, or the
first exception raised inside the body. -/
def parse_product_body (soup : Html) (final_url : String) : Except String Dict :=
  match table_info soup with
  | .error e => .error e
  | .ok info =>
    .ok (dictInsert
          (dictUpdate
            [("category", breadcrumb_category soup),
             ("description", some (description_text soup))]
            info)
          "fetched_url" (some final_url))

/-- `parse_product_page(product_url)` given the outcome of its internal
fetch: `{}` when the fetch failed, `{}` when the body raised (the
`except Exception` at lines 124–127), else the parsed detail dict. -/
def parse_product_page (fetched : Option (Html × String)) : Dict :=
  match fetched with
  | none => []
  | some (soup, final_url) =>
    match parse_product_body soup final_url with
    | .ok d => d
    | .error _ => []

/-- What one `requests.get` attempt can do: raise, or produce a response
with a status code, parsed body and final (post-redirect) URL `resp.url`. -/
inductive FetchOutcome where
  | exc
  | resp (code : Nat) (soup : Html) (finalUrl : String)

/-- The retry loop of `get_soup_and_url` (lines 47–63).  `oracle k` is the
outcome of attempt `k`; `jitter k` is the `random.random()` drawn before the
sleep that follows a failed attempt `k`.  Returns the result (`none` models
the `(None, None)` return), the number of attempts made, and the list of
sleep durations `delay * (1 + jitter)` in order (`delay` doubles after each
failure). -/
def fetch_go (oracle : Nat → FetchOutcome) (jitter : Nat → ℚ) :
    Nat → Nat → ℚ → Option (Html × String) × Nat × List ℚ
  | 0, _, _ => (none, 0, [])
  | n + 1, attempt, delay =>
    match oracle attempt with
    | .resp 200 soup finalUrl => (some (soup, finalUrl), 1, [])
    | _ =>
      let d := delay * (1 + jitter attempt)
      let (r, c, ds) := fetch_go oracle jitter n (attempt + 1) (delay * 2)
      (r, c + 1, d :: ds)

/-- `get_soup_and_url(url, max_retries, backoff_factor, ...)`: run the retry
loop from attempt 1 with initial delay `backoff_factor`. -/
def get_soup_and_url (oracle : Nat → FetchOutcome) (jitter : Nat → ℚ)
    (max_retries : Nat) (backoff_factor : ℚ) : Option (Html × String) × Nat × List ℚ :=
  fetch_go oracle jitter max_retries 1 backoff_factor

/-- A JSON value as produced by `json.dump` on the accumulator (only the
constructors the scraper can emit). -/
inductive Json where
  | null
  | str (s : String)
  | arr (xs : List Json)
  | obj (fields : List (String × Json))
deriving Repr, BEq

/-- Serialise one record: string values to JSON strings, `None` to null. -/
def encodeVal : PyVal → Json
  | none => .null
  | some s => .str s

/-- Serialise one record dict to a JSON object, keys in insertion order. -/
def encodeDict (d : Dict) : Json :=
  .obj (d.map (fun kv => (kv.1, encodeVal kv.2)))

/-- Serialise the accumulator to the JSON array `json.dump` writes. -/
def encodeBooks (books : List Dict) : Json :=
  .arr (books.map encodeDict)

/-- Deserialise one value (`json.load` inverse on the emitted shapes). -/
def decodeVal : Json → Option PyVal
  | .null => some none
  | .str s => some (some s)
  | _ => none

/-- Deserialise the fields of one record object. -/
def decodeFields : List (String × Json) → Option Dict
  | [] => some []
  | (k, j) :: rest =>
    match decodeVal j, decodeFields rest with
    | some v, some d => some ((k, v) :: d)
    | _, _ => none

/-- Deserialise one record. -/
def decodeDict : Json → Option Dict
  | .obj fields => decodeFields fields
  | _ => none

/-- Deserialise a list of records. -/
def decodeList : List Json → Option (List Dict)
  | [] => some []
  | j :: rest =>
    match decodeDict j, decodeList rest with
    | some d, some ds => some (d :: ds)
    | _, _ => none

/-- Deserialise the accumulator from the checkpoint file. -/
def decodeBooks : Json → Option (List Dict)
  | .arr xs => decodeList xs
  | _ => none

/-- Contents of a file in the model: the JSON snapshot or the CSV table
(header row and data rows). -/
inductive FileContent where
  | json (j : Json)
  | csv (header : List String) (rows : List (List String))
deriving Repr, BEq

/-- The filesystem: an association list from paths to contents (the first
binding for a path is the current one). -/
abbrev FS := List (String × FileContent)

/-- Read a file, `none` when it does not exist. -/
def fsRead (fs : FS) (p : String) : Option FileContent :=
  (fs.find? (fun e => e.1 == p)).map (·.2)

/-- Write (create or overwrite) a file. -/
def fsWrite (fs : FS) (p : String) (c : FileContent) : FS :=
  (p, c) :: fs.filter (fun e => e.1 ≠ p)

/-- Remove a file. -/
def fsDelete (fs : FS) (p : String) : FS :=
  fs.filter (fun e => e.1 ≠ p)

/-- `Path.replace`: atomically rename `src` onto `dst` (overwriting it);
no-op when `src` does not exist. -/
def fsRename (fs : FS) (src dst : String) : FS :=
  match fsRead fs src with
  | none => fs
  | some c => fsWrite (fsDelete fs src) dst c

/-- `data/raw_books.json` (`RAW_JSON`). -/
def RAW_JSON_path : String := "data/raw_books.json"

/-- `RAW_JSON.with_suffix(".tmp")`: the temporary sibling path. -/
def TMP_path : String := "data/raw_books.tmp"

/-- `data/raw_books.csv` (`RAW_CSV`). -/
def RAW_CSV_path : String := "data/raw_books.csv"

/-- The hardcoded site root `BASE`. -/
def BASE : String := "http://books.toscrape.com/"

/-- `safe_write_json_partial` (lines 130–135): dump to the temporary sibling
and atomically rename it onto the destination. -/
def safe_write_json_atomic (fs : FS) (books : List Dict) : FS :=
  fsRename (fsWrite fs TMP_path (.json (encodeBooks books))) TMP_path RAW_JSON_path

/-- The crash points of the save: before anything is written, after the
temporary file is written but before the rename, and after the rename. -/
inductive CrashPoint where
  | before
  | afterTmp
  | done

/-- The save as observed at each crash point. -/
def save_at_crash (fs : FS) (books : List Dict) : CrashPoint → FS
  | .before => fs
  | .afterTmp => fsWrite fs TMP_path (.json (encodeBooks books))
  | .done => safe_write_json_atomic fs books

/-- `sorted({k for d in all_books for k in d.keys()})`: the sorted,
duplicate-free union of all keys of all records. -/
def csv_header (books : List Dict) : List String :=
  List.insertionSort (· ≤ ·) (books.flatMap dictKeys).dedup

/-- One CSV cell as `csv.DictWriter` renders it: the value when the key is
present and a string, empty for an absent key (the writer's default
`restval`) or a `None` value. -/
def csv_cell (d : Dict) (k : String) : String :=
  match dictGet d k with
  | some (some s) => s
  | _ => ""

/-- The data rows of the CSV, one per record, cells in header order. -/
def csv_rows (books : List Dict) : List (List String) :=
  books.map (fun d => (csv_header books).map (csv_cell d))

/-- `safe_write_csv` (lines 138–146): do nothing at all when the
accumulator is empty, else overwrite the CSV with header and rows. -/
def safe_write_csv_fs (fs : FS) (books : List Dict) : FS :=
  if books = [] then fs
  else fsWrite fs RAW_CSV_path (.csv (csv_header books) (csv_rows books))

/-- The resume step at the top of `scrape_all` (lines 151–160): the
accumulator starts as the decoded checkpoint when the file exists and
deserialises, else `[]`. -/
def load_checkpoint (fs : FS) : List Dict :=
  match fsRead fs RAW_JSON_path with
  | none => []
  | some (.json j) =>
    match decodeBooks j with
    | some books => books
    | none => []
  | some _ => []

/-- Python `x or default` on the final-URL string (`page_final_url or
BASE`): the default is used exactly when the string is falsy (empty). -/
def pyOr (x dflt : String) : String := if x = "" then dflt else x

/-- The per-article body of the controller loop (lines 175–186): parse the
listing item, fetch-and-parse its detail page with an independent retry
budget (`detailFetch` is the outcome of that inner `get_soup_and_url`),
merge via `item.update(detail)` and append; an exception inside the body
(a missing heading/anchor) is caught and the item skipped. -/
def process_article (art : Html) (page_base : String)
    (detailFetch : String → Option (Html × String)) (books : List Dict) : List Dict :=
  match parse_list_item art page_base with
  | .error _ => books
  | .ok item =>
    let detail := parse_product_page (detailFetch (dictGetStr item "product_page_url"))
    books ++ [dictUpdate item detail]

/-- `soup.select("article.product_pod")`. -/
def selectArticles (soup : Html) : List Html :=
  findAllDesc (fun n => n.tagIs "article" && n.hasClasses ["product_pod"]) soup

/-- One iteration of the pagination loop over an already-fetched listing
page (lines 165–189): stop on fetch failure or an empty page, else process
every article with base `page_final_url or BASE`. -/
def scrape_page (fetchResult : Option (Html × String))
    (detailFetch : String → Option (Html × String)) (books : List Dict) : List Dict :=
  match fetchResult with
  | none => books
  | some (soup, finalUrl) =>
    let arts := selectArticles soup
    if arts.isEmpty then books
    else arts.foldl (fun acc art => process_article art (pyOr finalUrl BASE) detailFetch acc) books

/-- The names bound at module level of `scrape.py` when the
`except KeyboardInterrupt` handler runs: the imports (lines 13–23), the
configuration constants (lines 26–34) and the five function definitions.
`all_books` is a local of `scrape_all`, so it is not among them. -/
def module_names : List String :=
  ["requests", "BeautifulSoup", "time", "random", "json", "csv", "logging",
   "traceback", "urljoin", "Path", "tqdm",
   "BASE", "DATA_DIR", "RAW_JSON", "RAW_CSV", "HEADERS",
   "get_soup_and_url", "parse_list_item", "parse_product_page",
   "safe_write_json_partial_fn", "safe_write_csv", "scrape_all"]

/-- The `except KeyboardInterrupt` handler (lines 205–211): flush the
accumulator only when the name `all_books` is bound in the handler's
`locals()` — which, at module level, is the module namespace. -/
def keyboard_interrupt_handler (fs : FS) (books : List Dict) : FS :=
  if "all_books" ∈ module_names then
    safe_write_csv_fs (safe_write_json_atomic fs books) books
  else fs

end Scrape

namespace TransformLoad

open Scrape (Dict)

/-- `RATING_MAP` from `transform_and_load.py` (lines 20–28). -/
def RATING_MAP : List (String × Option ℤ) :=
  [("One", some 1), ("Two", some 2), ("Three", some 3), ("Four", some 4),
   ("Five", some 5), ("Zero", some 0), ("", none)]

/-- `rating_word_to_int`: `RATING_MAP.get(word, None)`. -/
def rating_word_to_int (w : String) : Option ℤ :=
  match RATING_MAP.lookup w with
  | some v => v
  | none => none

/-- Is the character matched by the regex class `[\d\.,]`? -/
def isPriceChar (c : Char) : Bool := c.isDigit || c == '.' || c == ','

/-- `re.search(pattern-class+, s)`: the first maximal run of characters
satisfying `p`, or `none` when no character matches. -/
def firstRun (p : Char → Bool) : List Char → Option (List Char)
  | [] => none
  | c :: rest => if p c then some (c :: rest.takeWhile p) else firstRun p rest

/-- Numeric value of a digit list (most significant first). -/
def digitsNat (cs : List Char) : Nat :=
  cs.foldl (fun n c => n * 10 + (c.toNat - 48)) 0

/-- Fractional value of the digit list after the decimal point. -/
def fracVal (cs : List Char) : ℚ := (digitsNat cs : ℚ) / 10 ^ cs.length

/-- Python `float(s)` restricted to strings of digits and dots (all a match
of `[\d\.,]+` can contain after commas are removed): `none` models
`ValueError`. -/
def pyFloat (cs : List Char) : Option ℚ :=
  match Scrape.splitOnChar '.' cs with
  | [i] => if i ≠ [] ∧ i.all Char.isDigit then some ((digitsNat i : ℚ)) else none
  | [i, f] =>
    if (i ≠ [] ∨ f ≠ []) ∧ i.all Char.isDigit ∧ f.all Char.isDigit then
      some ((digitsNat i : ℚ) + fracVal f)
    else none
  | _ => none

/-- `parse_price` (lines 30–38): empty text ⇒ `None`; no match of
`[\d\.,]+` ⇒ `None`; else `float` of the match with commas removed —
which raises `ValueError` (the `Except.error`) when the match holds no
digit, e.g. a lone dot. -/
def parse_price (price_text : String) : Except String (Option ℚ) :=
  if price_text = "" then .ok none
  else
    match firstRun isPriceChar price_text.data with
    | none => .ok none
    | some tok => match pyFloat (tok.filter (fun c => c ≠ ',')) with
      | some q => .ok (some q)
      | none => .error "ValueError"

/-- `parse_availability` (lines 40–47): empty text ⇒ `None`; else the first
run of digits as an integer, defaulting to `0` when the text holds no
digit. -/
def parse_availability (avail_text : String) : Option ℤ :=
  if avail_text = "" then none
  else
    match firstRun Char.isDigit avail_text.data with
    | some tok => some (digitsNat tok : ℤ)
    | none => some 0

end TransformLoad

open Scrape TransformLoad

/-- A complete listing item as found on a catalogue page. -/
def art_full : Html :=
  .elem "article" ["product_pod"] []
    [.elem "h3" [] []
      [.elem "a" [] [("title", "A Light in the Attic"), ("href", "../its-a-book.html")]
        [.text "A Light..."]],
     .elem "p" ["price_color"] [] [.text "£51.77"],
     .elem "p" ["instock", "availability"] [] [.text " In stock "],
     .elem "p" ["star-rating", "Three"] [] [],
     .elem "img" [] [("src", "../media/img.jpg")] []]

/-- A listing item whose heading and anchor exist but with every other
sub-element missing. -/
def art_bare : Html :=
  .elem "article" ["product_pod"] []
    [.elem "h3" [] [] [.elem "a" [] [("title", "T"), ("href", "x.html")] []]]

/-- The record `parse_list_item` extracts from `art_bare`. -/
def item_bare : Dict :=
  [("title", some "T"), ("product_page_url", some "http://x/x.html"),
   ("price_text", some ""), ("availability_text", some ""),
   ("rating_text", some ""), ("image_url", some "http://x/")]

/-- A listing item with no heading at all. -/
def art_empty : Html := .elem "article" ["product_pod"] [] []

/-- A detail page with a full breadcrumb but whose attribute table contains
a row with no header cell. -/
def soup_bad_row : Html :=
  .elem "html" [] []
    [.elem "ul" ["breadcrumb"] []
      [.elem "li" [] [] [.elem "a" [] [("href", "/")] [.text "Home"]],
       .elem "li" [] [] [.elem "a" [] [] [.text "Books"]],
       .elem "li" [] [] [.elem "a" [] [] [.text "Poetry"]]],
     .elem "table" ["table", "table-striped"] []
      [.elem "tr" [] [] [.elem "td" [] [] [.text "orphan"]]]]

/-- `d.update({})` leaves the dict unchanged. -/
theorem dictUpdate_nil (d : Dict) : dictUpdate d [] = d := rfl

/-- Reading back the path just written. -/
theorem fsRead_write_self (fs : FS) (p : String) (c : FileContent) :
    fsRead (fsWrite fs p c) p = some c := by
  simp [fsRead, fsWrite, List.find?]

/-- `find?` by key is unaffected by filtering out a different key. -/
theorem find?_filter_ne (fs : FS) (p q : String) (h : q ≠ p) :
    (fs.filter (fun e => e.1 ≠ p)).find? (fun e => e.1 == q) =
      fs.find? (fun e => e.1 == q) := by
  induction fs with
  | nil => rfl
  | cons e rest ih =>
    by_cases hk : e.1 = p
    · have hq : ((fun e : String × FileContent => e.1 == q) e) = false := by
        simp only [beq_eq_false_iff_ne, ne_eq]
        exact fun hh => h (by rw [← hh]; exact hk)
      rw [List.filter_cons_of_neg (by simp [hk]),
          List.find?_cons_of_neg _ (by simp [hq]), ih]
    · rw [List.filter_cons_of_pos (by simp [hk])]
      by_cases hq : e.1 = q
      · rw [List.find?_cons_of_pos _ (by simp [hq]), List.find?_cons_of_pos _ (by simp [hq])]
      · rw [List.find?_cons_of_neg _ (by simp [hq]), List.find?_cons_of_neg _ (by simp [hq]), ih]

/-- Writing one path does not change what is read at another. -/
theorem fsRead_write_ne (fs : FS) (p q : String) (c : FileContent) (h : q ≠ p) :
    fsRead (fsWrite fs p c) q = fsRead fs q := by
  unfold fsRead fsWrite
  rw [List.find?_cons_of_neg _ (by simp; exact fun hh => h hh.symm),
      find?_filter_ne fs p q h]

/-- Deleting one path does not change what is read at another. -/
theorem fsRead_delete_ne (fs : FS) (p q : String) (h : q ≠ p) :
    fsRead (fsDelete fs p) q = fsRead fs q := by
  unfold fsRead fsDelete
  rw [find?_filter_ne fs p q h]

/-- Value serialisation round-trips. -/
theorem decodeVal_encodeVal (v : PyVal) : decodeVal (encodeVal v) = some v := by
  cases v <;> rfl

/-- Field-list serialisation round-trips. -/
theorem decodeFields_encode (d : Dict) :
    decodeFields (d.map (fun kv => (kv.1, encodeVal kv.2))) = some d := by
  induction d with
  | nil => rfl
  | cons kv rest ih => simp [decodeFields, decodeVal_encodeVal, ih]

/-- Record serialisation round-trips. -/
theorem decodeDict_encodeDict (d : Dict) : decodeDict (encodeDict d) = some d := by
  simp [decodeDict, encodeDict, decodeFields_encode]

/-- Record-list serialisation round-trips. -/
theorem decodeList_encode (books : List Dict) :
    decodeList (books.map encodeDict) = some books := by
  induction books with
  | nil => rfl
  | cons d rest ih => simp [decodeList, decodeDict_encodeDict, ih]

/-- Accumulator serialisation round-trips. -/
theorem decodeBooks_encodeBooks (books : List Dict) :
    decodeBooks (encodeBooks books) = some books := by
  simp [decodeBooks, encodeBooks, decodeList_encode]

/-- Closed form of the retry loop when no attempt ever yields a 200
response: the result is the failure value, every one of the `n` attempts is
made, and the `k`-th sleep is `delay * 2^k * (1 + jitter)`. -/
theorem fetch_go_all_fail (oracle : Nat → FetchOutcome) (jitter : Nat → ℚ)
    (hfail : ∀ k s u, oracle k ≠ .resp 200 s u) :
    ∀ (n a : Nat) (d : ℚ),
      fetch_go oracle jitter n a d =
        (none, n, (List.range n).map (fun i => d * 2 ^ i * (1 + jitter (a + i)))) := by
  intro n
  induction n with
  | zero => intro a d; simp [fetch_go]
  | succ m ih =>
    intro a d
    unfold fetch_go
    split
    · next s u heq => exact absurd heq (hfail a s u)
    · rw [ih (a + 1) (d * 2)]
      refine Prod.ext rfl (Prod.ext rfl ?_)
      simp only [List.range_succ_eq_map, List.map_cons, List.map_map]
      refine congrArg₂ _ (by ring_nf) ?_
      refine List.map_congr_left ?_
      intro i _
      simp only [Function.comp_apply]
      rw [pow_succ, show a + (i + 1) = a + 1 + i by omega]
      ring

/-- If the retry loop returns content, some attempt produced a 200 response
with exactly that content and final URL. -/
theorem fetch_go_success_src (oracle : Nat → FetchOutcome) (jitter : Nat → ℚ) :
    ∀ (n a : Nat) (d : ℚ) (s : Html) (u : String) (c : Nat) (ds : List ℚ),
      fetch_go oracle jitter n a d = (some (s, u), c, ds) →
      ∃ k, oracle k = .resp 200 s u := by
  intro n
  induction n with
  | zero => intro a d s u c ds h; simp [fetch_go] at h
  | succ m ih =>
    intro a d s u c ds h
    unfold fetch_go at h
    revert h
    split
    · next s' u' heq =>
      intro h
      simp only [Prod.mk.injEq, Option.some.injEq] at h
      obtain ⟨⟨hs, hu⟩, -⟩ := h
      exact ⟨a, by rw [heq, hs, hu]⟩
    · intro h
      rcases hrec : fetch_go oracle jitter m (a + 1) (d * 2) with ⟨r, c', ds'⟩
      rw [hrec] at h
      simp only [Prod.mk.injEq] at h
      obtain ⟨h1, -, -⟩ := h
      exact ih (a + 1) (d * 2) s u c' ds' (by rw [hrec, h1])

/-- The backoff sleeps `b * 2^i * (1 + jitter)` are adjacent-wise
non-decreasing whenever the jitters lie in `[0, 1)` and the backoff factor
is non-negative. -/
theorem delays_chain (b : ℚ) (hb : 0 ≤ b) (jitter : Nat → ℚ)
    (hj : ∀ k, 0 ≤ jitter k ∧ jitter k < 1) (n : Nat) :
    List.Chain' (· ≤ ·) ((List.range n).map (fun i => b * 2 ^ i * (1 + jitter (1 + i)))) := by
  rw [List.chain'_map]
  cases n with
  | zero => simp
  | succ m =>
    rw [List.chain'_range_succ]
    intro i _
    have h1 : jitter (1 + i) < 1 := (hj (1 + i)).2
    have h2 : 0 ≤ jitter (1 + (i + 1)) := (hj (1 + (i + 1))).1
    have hp : (0 : ℚ) ≤ 2 ^ i := by positivity
    have hbp : (0 : ℚ) ≤ b * 2 ^ i := mul_nonneg hb hp
    rw [pow_succ]
    nlinarith [mul_nonneg hbp h2]

/-- C4: for a URL whose fetch never succeeds (every attempt raises or
returns a non-200 status), `get_soup_and_url` makes exactly `max_retries`
attempts, returns the failure value `(None, None)` instead of raising, and
the successive inter-attempt delays `backoff_factor * 2^(attempt-1) *
(1 + jitter)` with jitters in `[0, 1)` form a monotonically non-decreasing
sequence. -/
theorem C4_retry_exhaustion (oracle : Nat → FetchOutcome) (jitter : Nat → ℚ)
    (max_retries : Nat) (b : ℚ)
    (hfail : ∀ k s u, oracle k ≠ .resp 200 s u)
    (hj : ∀ k, 0 ≤ jitter k ∧ jitter k < 1) (hb : 0 ≤ b) :
    (get_soup_and_url oracle jitter max_retries b).1 = none ∧
    (get_soup_and_url oracle jitter max_retries b).2.1 = max_retries ∧
    (get_soup_and_url oracle jitter max_retries b).2.2 =
      (List.range max_retries).map (fun i => b * 2 ^ i * (1 + jitter (1 + i))) ∧
    List.Chain' (· ≤ ·) (get_soup_and_url oracle jitter max_retries b).2.2 := by
  have h := fetch_go_all_fail oracle jitter hfail max_retries 1 b
  unfold get_soup_and_url
  rw [h]
  exact ⟨rfl, rfl, rfl, delays_chain b hb jitter hj max_retries⟩

/-- Witness for C4 at the defaults `max_retries = 4`, `backoff_factor = 1`,
an oracle that always raises, and constant jitter `1/2`. -/
theorem C4_retry_exhaustion_witness :
    (get_soup_and_url (fun _ => .exc) (fun _ => (1 : ℚ) / 2) 4 1).1 = none ∧
    (get_soup_and_url (fun _ => .exc) (fun _ => (1 : ℚ) / 2) 4 1).2.1 = 4 ∧
    List.Chain' (· ≤ ·) (get_soup_and_url (fun _ => .exc) (fun _ => (1 : ℚ) / 2) 4 1).2.2 := by
  have h := C4_retry_exhaustion (fun _ => .exc) (fun _ => (1 : ℚ) / 2) 4 1
    (fun k s u hh => by exact nomatch hh)
    (fun k => by norm_num) (by norm_num)
  exact ⟨h.1, h.2.1, h.2.2.2⟩

/-- C1: contrary to the claim, an external `KeyboardInterrupt` does *not*
flush the accumulator: the handler guards the flush with
`'all_books' in locals()`, but at module level `all_books` (a local of
`scrape_all`) is not bound, so the handler leaves the filesystem — and in
particular the checkpoint file — exactly as it was, losing every record
appended since the last periodic checkpoint. -/
theorem C1_interrupt_flush_skipped :
    "all_books" ∉ module_names ∧
    (∀ (fs : FS) (books : List Dict), keyboard_interrupt_handler fs books = fs) ∧
    (∀ (fs : FS) (books : List Dict),
      fsRead (keyboard_interrupt_handler fs books) RAW_JSON_path = fsRead fs RAW_JSON_path) := by
  have hmem : "all_books" ∉ module_names := by decide
  have hid : ∀ (fs : FS) (books : List Dict), keyboard_interrupt_handler fs books = fs := by
    intro fs books
    unfold keyboard_interrupt_handler
    rw [if_neg hmem]
  exact ⟨hmem, hid, fun fs books => by rw [hid]⟩

/-- C2: the checkpoint save writes the serialized accumulator to the
temporary sibling and renames it onto the destination; at the crash point
after the temp-write but before the rename the destination's content is
unchanged, and after the rename it holds exactly the new snapshot. -/
theorem C2_checkpoint_atomic : ∀ (fs : FS) (books : List Dict),
    fsRead (save_at_crash fs books .afterTmp) RAW_JSON_path = fsRead fs RAW_JSON_path ∧
    fsRead (save_at_crash fs books .done) RAW_JSON_path =
      some (.json (encodeBooks books)) := by
  intro fs books
  constructor
  · exact fsRead_write_ne fs TMP_path RAW_JSON_path _ (by decide)
  · show fsRead (safe_write_json_atomic fs books) RAW_JSON_path = _
    unfold safe_write_json_atomic fsRename
    rw [fsRead_write_self]
    exact fsRead_write_self ..

/-- C9: loading the checkpoint immediately after saving accumulator
contents yields exactly those contents, in order, before any new fetch —
save followed by load is the identity on the accumulator. -/
theorem C9_save_load_roundtrip : ∀ (fs : FS) (books : List Dict),
    load_checkpoint (safe_write_json_atomic fs books) = books := by
  intro fs books
  have hread : fsRead (safe_write_json_atomic fs books) RAW_JSON_path =
      some (.json (encodeBooks books)) := by
    unfold safe_write_json_atomic fsRename
    rw [fsRead_write_self]
    exact fsRead_write_self ..
  simp only [load_checkpoint, hread, decodeBooks_encodeBooks]

/-- C5 counterexample: empty availability text maps to `None` (absent), not
to `0` as the claim states — `parse_availability` returns `None` for the
empty string before the default-0 branch can apply. -/
theorem C5_empty_availability_cx :
    parse_availability "" = none ∧ parse_availability "" ≠ some 0 := by decide

/-- C5 (amended): price text `£51.77` maps to `51.77` and empty price text
to absent; availability text `In stock (22 available)` maps to `22`, empty
availability text to absent (`None`), and non-empty availability text with
no digits to `0`; rating word `Three` maps to `3`, `Zero` to `0`, and the
empty word to absent. -/
theorem C5_field_extraction_amended :
    parse_price "£51.77" = .ok (some ((5177 : ℚ) / 100)) ∧
    parse_price "" = .ok none ∧
    parse_availability "In stock (22 available)" = some 22 ∧
    parse_availability "" = none ∧
    parse_availability "In stock" = some 0 ∧
    rating_word_to_int "Three" = some 3 ∧
    rating_word_to_int "Zero" = some 0 ∧
    rating_word_to_int "" = none := by
  refine ⟨?_, by decide, by decide, by decide, by decide, by decide, by decide, by decide⟩
  have h : parse_price "£51.77" =
      .ok (some ((digitsNat ['5', '1'] : ℚ) + fracVal ['7', '7'])) := rfl
  have h1 : digitsNat ['5', '1'] = 51 := by decide
  have h2 : digitsNat ['7', '7'] = 77 := by decide
  rw [h, fracVal, h1, h2]
  norm_num

/-- C10: `parse_price` is not total — on `"abc."` the regex `[\d\.,]+`
matches the lone dot, and `float(".")` raises `ValueError`, contradicting
the function's own docstring (`... or None if invalid`). -/
theorem C10_parse_price_raises :
    parse_price "abc." = .error "ValueError" ∧
    firstRun isPriceChar "abc.".data = some ['.'] := by decide

/-- C3 counterexample: a listing item with no heading makes
`parse_list_item` raise `AttributeError` instead of returning a record, and
a detail page whose attribute table has a row with no header cell makes
`parse_product_page` return the empty record — losing the category field
that was derivable from the breadcrumb, not just the affected field. -/
theorem C3_missing_markup_cx :
    parse_list_item art_empty "http://x/" = .error "AttributeError" ∧
    parse_product_page (some (soup_bad_row, "u")) = [] ∧
    breadcrumb_category soup_bad_row = some "Poetry" := by decide

/-- `urljoin` with an empty relative reference returns the base unchanged
(first branch of the model, as in `urllib.parse.urljoin(base, "")`). -/
theorem urljoin_empty_rel (base : String) : urljoin base "" = base := rfl

/-- C3 (amended): when the heading and its anchor are present,
`parse_list_item` returns a record; a missing price tag, availability tag
or star-rating marker yields an empty value for that field only, while a
missing image tag does not raise but makes `image_url` equal to the page
base URL (`urljoin base ""`), not an absent or empty value;
`parse_product_page` never propagates an exception (an internal error
yields the empty record), and a missing breadcrumb or description
paragraph yields an absent/empty value for that field only. -/
theorem C3_tolerant_extraction_amended :
    (∀ (article : Html) (base : String) (h3 a : Html),
      pyFind "h3" [] article = some h3 → pyFind "a" [] h3 = some a →
      (parse_list_item article base).isOk = true) ∧
    (∀ (article : Html) (base : String) (d : Dict),
      parse_list_item article base = .ok d →
      (pyFind "p" ["price_color"] article = none →
        dictGet d "price_text" = some (some "")) ∧
      (pyFind "p" ["instock", "availability"] article = none →
        dictGet d "availability_text" = some (some "")) ∧
      (pyFind "p" ["star-rating"] article = none →
        dictGet d "rating_text" = some (some "")) ∧
      (pyFind "img" [] article = none →
        dictGet d "image_url" = some (some base))) ∧
    (∀ (soup : Html) (url e : String),
      parse_product_body soup url = .error e →
      parse_product_page (some (soup, url)) = []) ∧
    (∀ soup : Html, breadcrumb_links soup = [] → breadcrumb_category soup = none) ∧
    (∀ soup : Html, product_desc_anchor soup = none → description_text soup = "") := by
  refine ⟨?_, ?_, ?_, ?_, ?_⟩
  · intro article base h3 a h1 h2
    simp [parse_list_item, h1, h2, Except.isOk, Except.toBool]
  · intro article base d h
    cases hh3 : pyFind "h3" [] article with
    | none =>
      unfold parse_list_item at h
      simp only [hh3] at h
      exact Except.noConfusion h
    | some h3 =>
      cases ha : pyFind "a" [] h3 with
      | none =>
        unfold parse_list_item at h
        simp only [hh3, ha] at h
        exact Except.noConfusion h
      | some a =>
        unfold parse_list_item at h
        simp only [hh3, ha, Except.ok.injEq] at h
        subst h
        refine ⟨?_, ?_, ?_, ?_⟩ <;> intro hnone <;>
          simp [dictGet, hnone, List.find?, urljoin_empty_rel]
  · intro soup url e h
    simp only [parse_product_page, h]
  · intro soup h
    simp [breadcrumb_category, h]
  · intro soup h
    unfold description_text
    rw [h]

/-- Witness for the amended C3 at a concrete item with heading and anchor
but no price, availability, rating or image markup. -/
theorem C3_tolerant_extraction_amended_witness :
    (parse_list_item art_bare "http://x/").isOk = true :=
  C3_tolerant_extraction_amended.1 art_bare "http://x/"
    (Html.elem "h3" [] [] [Html.elem "a" [] [("title", "T"), ("href", "x.html")] []])
    (Html.elem "a" [] [("title", "T"), ("href", "x.html")] []) rfl rfl

/-- C6 counterexample: with an empty accumulator `safe_write_csv` returns
without writing anything, so the previous (stale) export is left in place
instead of being regenerated (a regeneration from the empty accumulator
would have the empty column set). -/
theorem C6_empty_export_cx :
    safe_write_csv_fs [(RAW_CSV_path, FileContent.csv ["stale"] [["x"]])] [] =
      [(RAW_CSV_path, FileContent.csv ["stale"] [["x"]])] ∧
    fsRead [(RAW_CSV_path, FileContent.csv ["stale"] [["x"]])] RAW_CSV_path =
      some (FileContent.csv ["stale"] [["x"]]) ∧
    csv_header [] = [] ∧ ["stale"] ≠ csv_header [] := by
  exact ⟨rfl, rfl, rfl, by decide⟩

/-- C6 (amended): for every *non-empty* accumulator the tabular export is
regenerated in full: its column set is the sorted union of all keys across
all records, and a record missing a key renders an empty cell for that
column; for the empty accumulator the export is skipped entirely. -/
theorem C6_export_amended : ∀ (fs : FS) (books : List Dict), books ≠ [] →
    fsRead (safe_write_csv_fs fs books) RAW_CSV_path =
      some (.csv (csv_header books) (csv_rows books)) ∧
    List.Sorted (· ≤ ·) (csv_header books) ∧
    (∀ k, k ∈ csv_header books ↔ ∃ d, d ∈ books ∧ k ∈ dictKeys d) ∧
    (∀ (d : Dict) (k : String), dictGet d k = none → csv_cell d k = "") := by
  intro fs books hne
  refine ⟨?_, ?_, ?_, ?_⟩
  · unfold safe_write_csv_fs
    rw [if_neg hne]
    exact fsRead_write_self ..
  · exact List.sorted_insertionSort _ _
  · intro k
    rw [csv_header, List.mem_insertionSort, List.mem_dedup, List.mem_flatMap]
  · intro d k h
    unfold csv_cell
    rw [h]

/-- Witness for the amended C6 at a one-record accumulator. -/
theorem C6_export_amended_witness :
    fsRead (safe_write_csv_fs [] [[("b", some "1")]]) RAW_CSV_path =
      some (.csv (csv_header [[("b", some "1")]]) (csv_rows [[("b", some "1")]])) :=
  (C6_export_amended [] [[("b", some "1")]] (by decide)).1

/-- C7: on success the fetcher returns the final post-redirect URL of the
succeeding response alongside the content; the listing parser joins the
item link and the image source against the base URL it is given; and the
controller passes the fetcher's final URL (not the requested URL, and not
the hardcoded site root when the final URL is non-empty) as that base for
every article of the page. -/
theorem C7_final_url_base :
    (∀ (oracle : Nat → FetchOutcome) (jitter : Nat → ℚ) (n : Nat) (b : ℚ)
        (s : Html) (u : String) (c : Nat) (ds : List ℚ),
      get_soup_and_url oracle jitter n b = (some (s, u), c, ds) →
      ∃ k, oracle k = .resp 200 s u) ∧
    (∀ (article : Html) (base : String) (d : Dict),
      parse_list_item article base = .ok d →
      ∃ h3 a, pyFind "h3" [] article = some h3 ∧ pyFind "a" [] h3 = some a ∧
        dictGet d "product_page_url" = some (some (urljoin base (a.attrD "href" ""))) ∧
        dictGet d "image_url" = some (some (urljoin base
          (match pyFind "img" [] article with
            | some t => t.attrD "src" ""
            | none => "")))) ∧
    (∀ (soup : Html) (finalUrl : String) (df : String → Option (Html × String))
        (books : List Dict),
      finalUrl ≠ "" →
      scrape_page (some (soup, finalUrl)) df books =
        (selectArticles soup).foldl
          (fun acc art => process_article art finalUrl df acc) books) := by
  refine ⟨?_, ?_, ?_⟩
  · intro oracle jitter n b s u c ds h
    exact fetch_go_success_src oracle jitter n 1 b s u c ds h
  · intro article base d h
    cases hh3 : pyFind "h3" [] article with
    | none =>
      unfold parse_list_item at h
      simp only [hh3] at h
      exact Except.noConfusion h
    | some h3 =>
      cases ha : pyFind "a" [] h3 with
      | none =>
        unfold parse_list_item at h
        simp only [hh3, ha] at h
        exact Except.noConfusion h
      | some a =>
        unfold parse_list_item at h
        simp only [hh3, ha, Except.ok.injEq] at h
        subst h
        exact ⟨h3, a, rfl, ha, by simp [dictGet, List.find?], by simp [dictGet, List.find?]⟩
  · intro soup finalUrl df books h
    have hor : pyOr finalUrl BASE = finalUrl := by unfold pyOr; rw [if_neg h]
    by_cases harts : (selectArticles soup).isEmpty
    · have hnil : selectArticles soup = [] := List.isEmpty_iff.mp harts
      simp [scrape_page, hnil]
    · simp only [scrape_page, harts, Bool.false_eq_true, if_false, hor]

/-- Witness for C7 at a page with no article entries and a non-empty final
URL. -/
theorem C7_final_url_base_witness :
    scrape_page (some (Html.text "no articles", "http://final/x/")) (fun _ => none) [] = [] := by
  have h := C7_final_url_base.2.2 (Html.text "no articles") "http://final/x/"
    (fun _ => none) [] (by decide)
  rw [h]
  rfl

/-- C8: an item whose detail-page fetch never succeeds, or whose detail
parse raises, is still appended to the accumulator as exactly its listing
record (`item.update({})` keeps every listing field); the item is never
discarded because of a detail-level failure. -/
theorem C8_item_kept_on_detail_failure :
    ∀ (art : Html) (base : String) (df : String → Option (Html × String))
      (books : List Dict) (item : Dict),
      parse_list_item art base = .ok item →
      (df (dictGetStr item "product_page_url") = none ∨
        (∃ s u e, df (dictGetStr item "product_page_url") = some (s, u) ∧
          parse_product_body s u = .error e)) →
      process_article art base df books = books ++ [item] := by
  intro art base df books item hp hd
  have hdetail : parse_product_page (df (dictGetStr item "product_page_url")) = [] := by
    rcases hd with h | ⟨s, u, e, h1, h2⟩
    · rw [h]; rfl
    · rw [h1]; simp only [parse_product_page, h2]
  simp only [process_article, hp, hdetail, dictUpdate_nil]

/-- Witness for C8: the bare item with a detail fetch that always fails is
appended with its listing fields intact. -/
theorem C8_item_kept_on_detail_failure_witness :
    process_article art_bare "http://x/" (fun _ => none) [] = [item_bare] := by
  have h := C8_item_kept_on_detail_failure art_bare "http://x/" (fun _ => none) [] item_bare
    (by decide) (Or.inl rfl)
  simpa using h
